import Mathlib

/-
Verification development for the GSVA volcano-plot script
src/SAMENT_data_mining/macrophages_biotin_positive-vs-negative_GSVA.py.

The script classifies pathway rows (name, GSVA score, p-value) into four
categories via get_category, and update_plot mutates the shared dataframe's
category column, builds a Plotly figure with one scatter trace per category
(plus per-point numbered traces for keyword matches in non-interactive mode),
and returns the figure together with the keyword-matched rows sorted by
P.Value.

Modelling choices:
  - Python strings are Lean Strings; the character-level operations
    (upper-casing, strip, substring membership) are carried out on the
    underlying character lists so that concrete instances reduce in the
    kernel.
  - Numeric cells are rationals (the CSV holds decimal literals).  The code
    tests the derived column -log10(P.Value) against -np.log10(0.05); since
    x ↦ -log10 x is strictly antitone on (0, ∞) this is equivalent to
    P.Value < 0.05, which is what the embedding uses (lemma
    neg_log10_gt_iff below records the equivalence).  For the NaN behaviour
    of float comparisons a separate PyFloat model is used.
  - The module-level dataframe df that update_plot mutates is threaded as
    explicit state: the embedded update_plot returns the post-call table as
    its first component.
  - pandas sort_values('P.Value') is modelled by a comparison sort on the
    p-value column (insertion sort; any p-value-sorted permutation of the
    group is an admissible model of the unstable quicksort default).
-/

namespace GSVA

/-- The four category strings returned by get_category: 'keyword_match',
'upregulated', 'downregulated', 'non-significant'. -/
inductive Category where
  | keyword_match
  | upregulated
  | downregulated
  | non_significant
deriving DecidableEq

/-- One row of the loaded dataframe: the index entry (pathway name), the
GSVA_score and P.Value columns, and the category column, which is absent
(none) until update_plot first assigns it. The derived column
-log10(adj.P.Val) is determined by P_Value and is represented through it
(see neg_log10_gt_iff). -/
structure PathwayRow where
  name : String
  GSVA_score : ℚ
  P_Value : ℚ
  category : Option Category
deriving DecidableEq

/-- Writing the category column of a single row. -/
def setCategory (r : PathwayRow) (c : Category) : PathwayRow :=
  ⟨r.name, r.GSVA_score, r.P_Value, some c⟩

/-- Python str.strip(): drop leading and trailing whitespace (char-list level). -/
def pyStrip (s : List Char) : List Char :=
  ((s.dropWhile Char.isWhitespace).reverse.dropWhile Char.isWhitespace).reverse

/-- Python `needle in haystack` starting at the head: the first argument is a
candidate occurrence of the needle. -/
def beginsWith : List Char → List Char → Bool
  | [], _ => true
  | _ :: _, [] => false
  | a :: as, b :: bs => a == b && beginsWith as bs

/-- Python substring membership `needle in haystack` on char lists. -/
def containsSub (haystack needle : List Char) : Bool :=
  match haystack with
  | [] => needle.isEmpty
  | _ :: t => beginsWith needle haystack || containsSub t needle

/-- row.name.replace('_', ' ').upper() from get_category, char by char. -/
def normalizeName (nm : String) : List Char :=
  nm.data.map (fun c => Char.toUpper (if c = '_' then ' ' else c))

/-- The keyword preprocessing in get_category:
[kw.upper().strip() for kw in keywords if kw.strip() != '']. -/
def processKeywords (keywords : List String) : List (List Char) :=
  (keywords.filter (fun kw => !(pyStrip kw.data).isEmpty)).map
    (fun kw => pyStrip (kw.data.map Char.toUpper))

/-- The keyword block of get_category: under 'AND' all processed keywords must
occur in the normalized pathway name (all() of an empty list is true), under
'OR' at least one must; any other logic string skips the block. -/
def kwBranch (nm : String) (keywords : List String) (logic : String) : Bool :=
  if logic = "AND" then
    (processKeywords keywords).all (fun kw => containsSub (normalizeName nm) kw)
  else if logic = "OR" then
    (processKeywords keywords).any (fun kw => containsSub (normalizeName nm) kw)
  else false

/-- get_category(row, keywords, logic): keyword check first, then the
significance/direction rule with strict comparisons.  The source tests
row['-log10(adj.P.Val)'] > -np.log10(0.05); this is equivalent to
row['P.Value'] < 0.05 (neg_log10_gt_iff), the form used here. -/
def get_category (row : PathwayRow) (keywords : List String) (logic : String) :
    Category :=
  if kwBranch row.name keywords logic then Category.keyword_match
  else if row.GSVA_score > mkRat 1 2 ∧ row.P_Value < mkRat 1 20 then
    Category.upregulated
  else if row.GSVA_score < mkRat (-1) 2 ∧ row.P_Value < mkRat 1 20 then
    Category.downregulated
  else Category.non_significant

/-- The dataframe assignment df['category'] = df.apply(get_category, axis=1,
keywords=keywords, logic=logic): every row's category column is overwritten. -/
def assignCategories (df : List PathwayRow) (keywords : List String)
    (logic : String) : List PathwayRow :=
  df.map (fun r => setCategory r (get_category r keywords logic))

/-- One go.Scatter trace: the rows supplying the x/y columns (x = GSVA_score,
y = -log10(adj.P.Val), determined by P_Value), the mode, marker size, marker
color, the text labels, hoverinfo, and the legend name. -/
structure Trace where
  points : List PathwayRow
  mode : String
  markerSize : ℕ
  color : String
  text : List String
  hoverinfo : String
  name : String
deriving DecidableEq

/-- The go.Figure assembled by update_plot: its traces and the layout fields
set by fig.update_layout. -/
structure Figure where
  traces : List Trace
  paper_bgcolor : String
  plot_bgcolor : String
  title : String
  xaxis_title : String
  yaxis_title : String
  width : ℕ
  height : ℕ
  legend_title_text : String
deriving DecidableEq

/-- update_plot(keywords, logic, width, height, interactive).  The global df is
passed in and the mutated table is returned as the first component, followed by
the figure and keyword_df (the keyword-matched rows sorted by P.Value). -/
def update_plot (df : List PathwayRow) (keywords : List String) (logic : String)
    (width height : ℕ) (interactive : Bool) :
    List PathwayRow × Figure × List PathwayRow :=
  let df := assignCategories df keywords logic
  let non_significant_df :=
    df.filter (fun r => decide (r.category = some Category.non_significant))
  let upregulated_df :=
    df.filter (fun r => decide (r.category = some Category.upregulated))
  let downregulated_df :=
    df.filter (fun r => decide (r.category = some Category.downregulated))
  let keyword_df :=
    List.insertionSort (fun a b => a.P_Value ≤ b.P_Value)
      (df.filter (fun r => decide (r.category = some Category.keyword_match)))
  let baseTraces : List Trace :=
    [⟨non_significant_df, "markers", 8, "#A9A9A9",
        non_significant_df.map (fun r => r.name), "text", "Non-Significant"⟩,
      ⟨upregulated_df, "markers", 8, "#FF6347",
        upregulated_df.map (fun r => r.name), "text", "Upregulated"⟩,
      ⟨downregulated_df, "markers", 8, "#1E90FF",
        downregulated_df.map (fun r => r.name), "text", "Downregulated"⟩]
  let kwTraces : List Trace :=
    if interactive then
      [⟨keyword_df, "markers", 15, "#32CD32",
          keyword_df.map (fun r => r.name), "text", "Keyword Matched Pathways"⟩]
    else
      keyword_df.enum.map (fun p =>
        ⟨[p.2], "text+markers", 15, "#32CD32", [toString (p.1 + 1)], "text",
          "Keyword Matched Pathways " ++ toString (p.1 + 1)⟩)
  let fig : Figure :=
    ⟨baseTraces ++ kwTraces, "rgba(0,0,0,0)", "rgba(255,255,255,1)",
      "Interactive Volcano Plot with Keyword Search", "GSVA Score",
      "-log10(adj.P.Val)", width, height, "Pathway Categories"⟩
  (df, fig, keyword_df)

/-- IEEE-754-style cell value for the NaN model: NaN or a (representable)
number; all strict comparisons involving NaN are false. -/
inductive PyFloat where
  | nan
  | val (q : ℚ)
deriving DecidableEq

/-- Float strict less-than: false whenever either side is NaN. -/
def PyFloat.flt : PyFloat → PyFloat → Bool
  | PyFloat.val a, PyFloat.val b => decide (a < b)
  | _, _ => false

/-- A row whose numeric cells may be NaN (missing or non-numeric data after
pd.read_csv). -/
structure PathwayRowF where
  name : String
  GSVA_score : PyFloat
  P_Value : PyFloat
deriving DecidableEq

/-- get_category over possibly-NaN numeric cells, with the same strict
comparisons: row['GSVA_score'] > 0.5, row['GSVA_score'] < -0.5, and the
p-value test (NaN p-value makes -log10(p) NaN, so the comparison with
-log10(0.05) is false, exactly as P.Value < 0.05 is false here). -/
def get_category_nan (row : PathwayRowF) (keywords : List String)
    (logic : String) : Category :=
  if kwBranch row.name keywords logic then Category.keyword_match
  else if PyFloat.flt (PyFloat.val (mkRat 1 2)) row.GSVA_score &&
      PyFloat.flt row.P_Value (PyFloat.val (mkRat 1 20)) then
    Category.upregulated
  else if PyFloat.flt row.GSVA_score (PyFloat.val (mkRat (-1) 2)) &&
      PyFloat.flt row.P_Value (PyFloat.val (mkRat 1 20)) then
    Category.downregulated
  else Category.non_significant

/-- Justification for replacing the source's test
-log10(P.Value) > -np.log10(0.05) by P.Value < 0.05: x ↦ -log10 x is
strictly antitone on the positive reals. -/
theorem neg_log10_gt_iff (p : ℝ) (hp : 0 < p) :
    -Real.logb 10 p > -Real.logb 10 (1 / 20) ↔ p < 1 / 20 := by
  rw [gt_iff_lt, neg_lt_neg_iff]
  exact Real.logb_lt_logb_iff (by norm_num) hp (by norm_num)

/-- The spec scenario: WNT_SIGNALING (0.8, 0.01), APOPTOSIS (-0.7, 0.02),
CELL_CYCLE (0.1, 0.9) with keywords=[WNT], logic=AND classify as
keyword_match, downregulated, non_significant. -/
example :
    assignCategories
        [⟨"WNT_SIGNALING", mkRat 8 10, mkRat 1 100, none⟩,
          ⟨"APOPTOSIS", mkRat (-7) 10, mkRat 1 50, none⟩,
          ⟨"CELL_CYCLE", mkRat 1 10, mkRat 9 10, none⟩] ["WNT"] "AND" =
      [⟨"WNT_SIGNALING", mkRat 8 10, mkRat 1 100, some Category.keyword_match⟩,
        ⟨"APOPTOSIS", mkRat (-7) 10, mkRat 1 50, some Category.downregulated⟩,
        ⟨"CELL_CYCLE", mkRat 1 10, mkRat 9 10, some Category.non_significant⟩] := by
  decide

/-- Spec scenario: keywords [WNT, SIGNALING] with OR logic match
WNT PATHWAY but not CELL CYCLE. -/
example :
    kwBranch "WNT PATHWAY" ["WNT", "SIGNALING"] "OR" = true ∧
    kwBranch "CELL CYCLE" ["WNT", "SIGNALING"] "OR" = false := by
  decide

example :
    (update_plot [⟨"WNT_SIGNALING", mkRat 8 10, mkRat 1 100, none⟩,
        ⟨"WNT_B", mkRat 1 10, mkRat 2 100, none⟩] ["WNT"] "AND" 800 600
        false).2.2 =
      [⟨"WNT_SIGNALING", mkRat 8 10, mkRat 1 100, some Category.keyword_match⟩,
        ⟨"WNT_B", mkRat 1 10, mkRat 2 100, some Category.keyword_match⟩] := by
  decide

example :
    ((update_plot [⟨"WNT_SIGNALING", mkRat 8 10, mkRat 1 100, none⟩]
        ["WNT"] "AND" 800 600 false).2.1.traces.map (fun t => t.text)) =
      [[], [], [], ["1"]] := by
  decide

/-- Specialization of the keyword block to 'AND' logic. -/
theorem kwBranch_and (nm : String) (keywords : List String) :
    kwBranch nm keywords "AND" =
      (processKeywords keywords).all (fun kw => containsSub (normalizeName nm) kw) :=
  rfl

/-- Specialization of the keyword block to 'OR' logic. -/
theorem kwBranch_or (nm : String) (keywords : List String) :
    kwBranch nm keywords "OR" =
      (processKeywords keywords).any (fun kw => containsSub (normalizeName nm) kw) :=
  rfl

/-- get_category returns keyword_match exactly when its first branch fires:
the fall-through significance rule never produces keyword_match. -/
theorem get_category_eq_keyword_match_iff (row : PathwayRow)
    (keywords : List String) (logic : String) :
    get_category row keywords logic = Category.keyword_match ↔
      kwBranch row.name keywords logic = true := by
  unfold get_category
  split_ifs with h1 h2 h3 <;> simp_all

/-- C1 counterexample: with an empty keyword list and AND logic the keyword
branch fires for every row, because all() over an empty list is vacuously
true; this otherwise non-significant row is classified keyword_match,
refuting the claim that an empty keyword list never produces keyword_match
for both logic values. -/
theorem c1_counterexample :
    get_category ⟨"CELL_CYCLE", mkRat 1 10, mkRat 9 10, none⟩ [] "AND" =
      Category.keyword_match := by
  decide

/-- C1 (amended): for every row, a keyword list all of whose entries are
discarded as whitespace (in particular the empty list) never yields
keyword_match under OR logic and classification falls through to the
significance rule; under AND logic, however, such a list classifies every
row as keyword_match, since all() over the empty processed list is true. -/
theorem c1_empty_keywords (row : PathwayRow) (keywords : List String)
    (h : processKeywords keywords = []) :
    get_category row keywords "OR" ≠ Category.keyword_match ∧
    get_category row keywords "AND" = Category.keyword_match := by
  constructor
  · simp [Ne, get_category_eq_keyword_match_iff, kwBranch_or, h]
  · simp [get_category_eq_keyword_match_iff, kwBranch_and, h]

/-- C1 witness: the amended statement at a concrete row and a whitespace-only
keyword list. -/
theorem c1_witness :
    get_category ⟨"WNT_SIGNALING", mkRat 8 10, mkRat 1 100, none⟩ [" "] "OR" ≠
        Category.keyword_match ∧
      get_category ⟨"WNT_SIGNALING", mkRat 8 10, mkRat 1 100, none⟩ [" "]
          "AND" =
        Category.keyword_match :=
  c1_empty_keywords ⟨"WNT_SIGNALING", mkRat 8 10, mkRat 1 100, none⟩ [" "]
    (by decide)

/-- C2: for a non-empty keyword list, AND logic classifies a row keyword_match
iff every retained keyword (uppercased, stripped; whitespace-only entries
discarded) is a substring of the normalized (underscore-to-space, upper-cased)
name, and OR logic iff at least one is. -/
theorem c2_keyword_semantics (row : PathwayRow) (keywords : List String)
    (hne : keywords ≠ []) :
    (get_category row keywords "AND" = Category.keyword_match ↔
      ∀ kw ∈ processKeywords keywords,
        containsSub (normalizeName row.name) kw = true) ∧
    (get_category row keywords "OR" = Category.keyword_match ↔
      ∃ kw ∈ processKeywords keywords,
        containsSub (normalizeName row.name) kw = true) := by
  constructor
  · rw [get_category_eq_keyword_match_iff, kwBranch_and, List.all_eq_true]
  · rw [get_category_eq_keyword_match_iff, kwBranch_or, List.any_eq_true]

/-- C2 witness: the keyword semantics at a concrete row and keyword list. -/
theorem c2_witness :
    (get_category ⟨"WNT_SIGNALING", mkRat 8 10, mkRat 1 100, none⟩ ["WNT"]
          "AND" =
        Category.keyword_match ↔
      ∀ kw ∈ processKeywords ["WNT"],
        containsSub (normalizeName "WNT_SIGNALING") kw = true) ∧
    (get_category ⟨"WNT_SIGNALING", mkRat 8 10, mkRat 1 100, none⟩ ["WNT"]
          "OR" =
        Category.keyword_match ↔
      ∃ kw ∈ processKeywords ["WNT"],
        containsSub (normalizeName "WNT_SIGNALING") kw = true) :=
  c2_keyword_semantics ⟨"WNT_SIGNALING", mkRat 8 10, mkRat 1 100, none⟩
    ["WNT"] (by decide)

/-- C3: a GSVA score of exactly 0.5 or -0.5, or a p-value of exactly 0.05,
never classifies as upregulated or downregulated; the comparisons are strict,
so boundary ties fall through. -/
theorem c3_strict_boundaries (row : PathwayRow) (keywords : List String)
    (logic : String)
    (h : row.GSVA_score = mkRat 1 2 ∨ row.GSVA_score = mkRat (-1) 2 ∨
      row.P_Value = mkRat 1 20) :
    get_category row keywords logic ≠ Category.upregulated ∧
    get_category row keywords logic ≠ Category.downregulated := by
  unfold get_category
  split_ifs with h1 h2 h3
  · decide
  · rcases h with hs | hs | hp
    · rw [hs] at h2
      exact absurd h2.1 (by decide)
    · rw [hs] at h2
      exact absurd h2.1 (by decide)
    · rw [hp] at h2
      exact absurd h2.2 (by decide)
  · rcases h with hs | hs | hp
    · rw [hs] at h3
      exact absurd h3.1 (by decide)
    · rw [hs] at h3
      exact absurd h3.1 (by decide)
    · rw [hp] at h3
      exact absurd h3.2 (by decide)
  · decide

/-- C3 witness: a row sitting exactly on the score threshold with a tiny
p-value is still neither upregulated nor downregulated. -/
theorem c3_witness :
    get_category ⟨"PATH_A", mkRat 1 2, mkRat 1 100, none⟩ [] "OR" ≠
        Category.upregulated ∧
      get_category ⟨"PATH_A", mkRat 1 2, mkRat 1 100, none⟩ [] "OR" ≠
        Category.downregulated :=
  c3_strict_boundaries ⟨"PATH_A", mkRat 1 2, mkRat 1 100, none⟩ [] "OR"
    (Or.inl (by decide))

/-- C4: the keyword check is performed first and short-circuits, so a row
satisfying both the keyword condition and the upregulated or downregulated
condition is classified keyword_match. -/
theorem c4_keyword_precedence (row : PathwayRow) (keywords : List String)
    (logic : String) (hkw : kwBranch row.name keywords logic = true)
    (hsig : (row.GSVA_score > mkRat 1 2 ∧ row.P_Value < mkRat 1 20) ∨
      (row.GSVA_score < mkRat (-1) 2 ∧ row.P_Value < mkRat 1 20)) :
    get_category row keywords logic = Category.keyword_match := by
  unfold get_category
  rw [hkw]
  rfl

/-- C4 witness: a keyword-matched row that would also qualify as upregulated
is classified keyword_match. -/
theorem c4_witness :
    get_category ⟨"WNT_SIGNALING", mkRat 8 10, mkRat 1 100, none⟩ ["WNT"]
        "AND" =
      Category.keyword_match :=
  c4_keyword_precedence ⟨"WNT_SIGNALING", mkRat 8 10, mkRat 1 100, none⟩
    ["WNT"] "AND" (by decide) (Or.inl (by decide))

/-- C5: classification assigns exactly one of the four categories: whatever
get_category returns occurs exactly once in the enumeration of all four
category values (mutual exclusion and exhaustiveness). -/
theorem c5_exactly_one (row : PathwayRow) (keywords : List String)
    (logic : String) :
    [Category.keyword_match, Category.upregulated, Category.downregulated,
        Category.non_significant].count (get_category row keywords logic) =
      1 := by
  generalize get_category row keywords logic = c
  cases c <;> decide

/-- C6: the second return of update_plot is the keyword-matched subset of the
classified table sorted non-decreasingly by p-value, and in non-interactive
mode the traces after the three baseline ones carry, in order, exactly the
rows of that sorted table, each labelled with its 1-based rank; so rank k
marks a row with the k-th smallest p-value among the matches. -/
theorem c6_sorted_match_table (df : List PathwayRow) (keywords : List String)
    (logic : String) (width height : ℕ) (interactive : Bool) :
    ((update_plot df keywords logic width height interactive).2.2).Pairwise
        (fun a b => a.P_Value ≤ b.P_Value) ∧
      ((update_plot df keywords logic width height interactive).2.2).Perm
        (((update_plot df keywords logic width height interactive).1).filter
          (fun r => decide (r.category = some Category.keyword_match))) ∧
      (((update_plot df keywords logic width height
              false).2.1.traces.drop 3).map (fun t => (t.points, t.text)) =
        ((update_plot df keywords logic width height false).2.2).enum.map
          (fun p => ([p.2], [toString (p.1 + 1)]))) := by
  have e1 : (update_plot df keywords logic width height interactive).2.2 =
      List.insertionSort (fun a b => a.P_Value ≤ b.P_Value)
        ((assignCategories df keywords logic).filter
          (fun r => decide (r.category = some Category.keyword_match))) := rfl
  have e2 : (update_plot df keywords logic width height interactive).1 =
      assignCategories df keywords logic := rfl
  refine ⟨?_, ?_, ?_⟩
  · rw [e1]
    haveI : IsTotal PathwayRow (fun a b => a.P_Value ≤ b.P_Value) :=
      ⟨fun a b => le_total a.P_Value b.P_Value⟩
    haveI : IsTrans PathwayRow (fun a b => a.P_Value ≤ b.P_Value) :=
      ⟨fun _ _ _ hab hbc => le_trans hab hbc⟩
    exact List.sorted_insertionSort _ _
  · rw [e1, e2]
    exact List.perm_insertionSort _ _
  · have e3 : (update_plot df keywords logic width height
        false).2.1.traces.drop 3 =
        ((update_plot df keywords logic width height false).2.2).enum.map
          (fun p =>
            (⟨[p.2], "text+markers", 15, "#32CD32", [toString (p.1 + 1)],
              "text", "Keyword Matched Pathways " ++ toString (p.1 + 1)⟩ :
              Trace)) := rfl
    rw [e3, List.map_map]
    rfl

/-- C7 counterexample: update_plot overwrites the category column of the
shared table in place: a previously assigned, caller-visible category
(upregulated) is replaced, so the table after the call differs from the table
the caller passed in, refuting the no-mutation claim. -/
theorem c7_counterexample :
    (update_plot
        [⟨"CELL_CYCLE", mkRat 1 10, mkRat 9 10, some Category.upregulated⟩]
        [] "OR" 800 600 true).1 ≠
      [⟨"CELL_CYCLE", mkRat 1 10, mkRat 9 10, some Category.upregulated⟩] := by
  decide

/-- C7 (amended): update_plot does mutate the shared table, but only its
category column: after a call the table is exactly the input with every row's
category overwritten by get_category — a pure per-row function of the data
columns and the query — and the name, score and p-value columns are left
unchanged. -/
theorem c7_mutates_only_category (df : List PathwayRow)
    (keywords : List String) (logic : String) (width height : ℕ)
    (interactive : Bool) :
    (update_plot df keywords logic width height interactive).1 =
        assignCategories df keywords logic ∧
      ((update_plot df keywords logic width height interactive).1).map
          (fun r => (r.name, r.GSVA_score, r.P_Value)) =
        df.map (fun r => (r.name, r.GSVA_score, r.P_Value)) := by
  refine ⟨rfl, ?_⟩
  show (assignCategories df keywords logic).map _ = _
  unfold assignCategories
  rw [List.map_map]
  exact List.map_congr_left (fun a _ => rfl)

/-- C8: classification and plot building are total functions of the embedded
state: on an empty table every emitted trace has an empty point list and the
match table is empty, and when no row is keyword-matched and interactive is
false the returned table is empty and no numbered label traces are added
after the three baseline traces. -/
theorem c8_empty_safe (df : List PathwayRow) (keywords : List String)
    (logic : String) (width height : ℕ) (interactive : Bool) :
    (∀ tr ∈ (update_plot [] keywords logic width height
        interactive).2.1.traces, tr.points = []) ∧
      (update_plot [] keywords logic width height interactive).2.2 = [] ∧
      ((assignCategories df keywords logic).filter
          (fun r => decide (r.category = some Category.keyword_match)) = [] →
        (update_plot df keywords logic width height false).2.2 = [] ∧
          (update_plot df keywords logic width height
            false).2.1.traces.drop 3 = []) := by
  refine ⟨?_, rfl, ?_⟩
  · intro tr htr
    cases interactive
    · have e : (update_plot [] keywords logic width height
          false).2.1.traces =
          [⟨[], "markers", 8, "#A9A9A9", [], "text", "Non-Significant"⟩,
            ⟨[], "markers", 8, "#FF6347", [], "text", "Upregulated"⟩,
            ⟨[], "markers", 8, "#1E90FF", [], "text", "Downregulated"⟩] := rfl
      rw [e] at htr
      simp only [List.mem_cons, List.not_mem_nil, or_false] at htr
      rcases htr with rfl | rfl | rfl <;> rfl
    · have e : (update_plot [] keywords logic width height
          true).2.1.traces =
          [⟨[], "markers", 8, "#A9A9A9", [], "text", "Non-Significant"⟩,
            ⟨[], "markers", 8, "#FF6347", [], "text", "Upregulated"⟩,
            ⟨[], "markers", 8, "#1E90FF", [], "text", "Downregulated"⟩,
            ⟨[], "markers", 15, "#32CD32", [], "text",
              "Keyword Matched Pathways"⟩] := rfl
      rw [e] at htr
      simp only [List.mem_cons, List.not_mem_nil, or_false] at htr
      rcases htr with rfl | rfl | rfl | rfl <;> rfl
  · intro hEmpty
    have e1 : (update_plot df keywords logic width height false).2.2 =
        List.insertionSort (fun a b => a.P_Value ≤ b.P_Value)
          ((assignCategories df keywords logic).filter
            (fun r => decide (r.category = some Category.keyword_match))) := rfl
    have e2 : (update_plot df keywords logic width height
        false).2.1.traces.drop 3 =
        ((update_plot df keywords logic width height false).2.2).enum.map
          (fun p =>
            (⟨[p.2], "text+markers", 15, "#32CD32", [toString (p.1 + 1)],
              "text", "Keyword Matched Pathways " ++ toString (p.1 + 1)⟩ :
              Trace)) := rfl
    constructor
    · rw [e1, hEmpty]
      rfl
    · rw [e2, e1, hEmpty]
      rfl

/-- C8 witness: the empty-table conclusions at a concrete query, and the
empty-match-group conclusions at a one-row table that matches nothing. -/
theorem c8_witness :
    (update_plot [] ["WNT"] "OR" 800 600 true).2.2 = [] ∧
      (update_plot [⟨"APOPTOSIS", mkRat (-7) 10, mkRat 1 50, none⟩] ["WNT"]
          "OR" 800 600 false).2.2 = [] ∧
      (update_plot [⟨"APOPTOSIS", mkRat (-7) 10, mkRat 1 50, none⟩] ["WNT"]
        "OR" 800 600 false).2.1.traces.drop 3 = [] := by
  refine ⟨(c8_empty_safe [] ["WNT"] "OR" 800 600 true).2.1, ?_, ?_⟩
  · exact ((c8_empty_safe
      [⟨"APOPTOSIS", mkRat (-7) 10, mkRat 1 50, none⟩] ["WNT"] "OR" 800 600
      true).2.2 (by decide)).1
  · exact ((c8_empty_safe
      [⟨"APOPTOSIS", mkRat (-7) 10, mkRat 1 50, none⟩] ["WNT"] "OR" 800 600
      true).2.2 (by decide)).2

/-- Overwriting the category column does not change how get_category
classifies a row: it reads only the name and the numeric columns. -/
theorem get_category_setCategory (r : PathwayRow) (c : Category)
    (keywords : List String) (logic : String) :
    get_category (setCategory r c) keywords logic =
      get_category r keywords logic := rfl

/-- Classifying an already classified table yields the same table. -/
theorem assignCategories_idem (df : List PathwayRow) (keywords : List String)
    (logic : String) :
    assignCategories (assignCategories df keywords logic) keywords logic =
      assignCategories df keywords logic := by
  unfold assignCategories
  rw [List.map_map]
  exact List.map_congr_left (fun a _ => rfl)

/-- update_plot depends on the incoming table only through its
classification. -/
theorem update_plot_congr (df1 df2 : List PathwayRow) (keywords : List String)
    (logic : String) (width height : ℕ) (interactive : Bool)
    (h : assignCategories df1 keywords logic =
      assignCategories df2 keywords logic) :
    update_plot df1 keywords logic width height interactive =
      update_plot df2 keywords logic width height interactive := by
  unfold update_plot
  rw [h]

/-- C9: the pipeline is deterministic: re-invoking update_plot with identical
parameters — on the table state left behind by the first invocation —
produces the identical table state, figure (hence category assignments) and
sorted keyword-match table. -/
theorem c9_deterministic (df : List PathwayRow) (keywords : List String)
    (logic : String) (width height : ℕ) (interactive : Bool) :
    update_plot (update_plot df keywords logic width height interactive).1
        keywords logic width height interactive =
      update_plot df keywords logic width height interactive :=
  update_plot_congr _ df keywords logic width height interactive
    (assignCategories_idem df keywords logic)

/-- C10: a row whose score or p-value cell is NaN and which is not
keyword-matched classifies as non_significant: every strict comparison
involving NaN is false, so malformed numeric data is silently absorbed into
the non_significant category. -/
theorem c10_nan_non_significant (row : PathwayRowF) (keywords : List String)
    (logic : String)
    (hnan : row.GSVA_score = PyFloat.nan ∨ row.P_Value = PyFloat.nan)
    (hkw : kwBranch row.name keywords logic = false) :
    get_category_nan row keywords logic = Category.non_significant := by
  unfold get_category_nan
  rw [hkw]
  rcases hnan with h | h <;> rw [h] <;> simp [PyFloat.flt]

/-- C10 witness: a non-matching row with NaN score is non_significant. -/
theorem c10_witness :
    get_category_nan ⟨"PATH_B", PyFloat.nan, PyFloat.val (mkRat 1 100)⟩
        ["WNT"] "OR" =
      Category.non_significant :=
  c10_nan_non_significant ⟨"PATH_B", PyFloat.nan, PyFloat.val (mkRat 1 100)⟩
    ["WNT"] "OR" (Or.inl rfl) (by decide)

end GSVA
